import Mathlib

/-!
Verification of the music-generation demo's core logic: the text-to-parameter
extractor (`_parseDescription` in tone-music-generator.js), the WAV encoder
(`audioBufferToWav` in app.js) and the generator fallback manager
(music-generator-manager.js), shallowly embedded in Lean 4.
-/

namespace MusicGen

/-- JS `String.prototype.toLowerCase` (for the ASCII texts this program matches
against): lower-case every character, working over the character list. -/
def jsToLower (s : String) : String :=
  String.mk (s.toList.map Char.toLower)

/-- JS `String.prototype.toUpperCase` (ASCII), over the character list. -/
def jsToUpper (s : String) : String :=
  String.mk (s.toList.map Char.toUpper)

/-- JS `String.prototype.includes`: substring containment, via character lists:
`sub` occurs contiguously in `s` iff it is a prefix of some suffix of `s`. -/
def includes (s sub : String) : Bool :=
  (List.tails s.toList).any (fun t => List.isPrefixOf sub.toList t)

/-- The parameter record built by `_parseDescription`
(tone-music-generator.js, lines 65-73). Duration is a rational (JS number,
only ever 3.0 / 5.0 / 10.0 here). -/
structure MusicParams where
  tempo : Nat
  key : String
  scale : String
  instruments : List String
  mood : String
  duration : Rat
  complexity : String
deriving DecidableEq, Repr

/-- The initial `params` object (lines 65-73). -/
def initParams : MusicParams :=
  { tempo := 120, key := "C", scale := "major", instruments := [],
    mood := "neutral", duration := 5, complexity := "medium" }

/-- Tempo detection (lines 75-84): an if / else-if chain, first match wins. -/
def tempoPass (d : String) (p : MusicParams) : MusicParams :=
  if includes d "slow" || includes d "lento" || includes d "adagio" then
    { p with tempo := 60 }
  else if includes d "fast" || includes d "allegro" || includes d "presto" then
    { p with tempo := 160 }
  else if includes d "moderate" || includes d "andante" then
    { p with tempo := 100 }
  else if includes d "upbeat" || includes d "energetic" then
    { p with tempo := 140 }
  else p

/-- The key-detection loop body (lines 87-96): scan keys c..b, stop at the
first letter matching one of the three phrase shapes; a match sets `key`
(uppercased) and, when the text contains "minor", also `scale`. -/
def keyLoop (d : String) (ks : List String) (p : MusicParams) : MusicParams :=
  match ks with
  | [] => p
  | k :: rest =>
    if includes d ("key of " ++ k) || includes d (k ++ " major")
        || includes d (k ++ " minor") then
      let p1 := { p with key := jsToUpper k }
      if includes d "minor" then { p1 with scale := "minor" } else p1
    else keyLoop d rest p

/-- Key detection (lines 86-96). -/
def keyPass (d : String) (p : MusicParams) : MusicParams :=
  keyLoop d ["c", "d", "e", "f", "g", "a", "b"] p

/-- Scale detection (lines 98-103): `if minor ... else if major ...`. -/
def scalePass (d : String) (p : MusicParams) : MusicParams :=
  if includes d "minor" then { p with scale := "minor" }
  else if includes d "major" then { p with scale := "major" }
  else p

/-- Instrument detection (lines 105-118): each keyword independently appends;
an empty result is replaced by the default pair. -/
def instrumentPass (d : String) (p : MusicParams) : MusicParams :=
  let l :=
    (if includes d "piano" then ["piano"] else []) ++
    (if includes d "guitar" then ["guitar"] else []) ++
    (if includes d "drums" || includes d "drum" then ["drums"] else []) ++
    (if includes d "bass" then ["bass"] else []) ++
    (if includes d "violin" then ["violin"] else []) ++
    (if includes d "flute" then ["flute"] else []) ++
    (if includes d "trumpet" then ["trumpet"] else []) ++
    (if includes d "saxophone" || includes d "sax" then ["saxophone"] else [])
  { p with instruments := if l.isEmpty then ["piano", "bass"] else l }

/-- Mood detection (lines 120-133): an if / else-if chain; happy/sad also set
the scale, energetic/calm also clamp the tempo. -/
def moodPass (d : String) (p : MusicParams) : MusicParams :=
  if includes d "happy" || includes d "joyful" || includes d "cheerful" then
    { p with mood := "happy", scale := "major" }
  else if includes d "sad" || includes d "melancholic" || includes d "somber" then
    { p with mood := "sad", scale := "minor" }
  else if includes d "energetic" || includes d "intense" || includes d "powerful" then
    { p with mood := "energetic", tempo := max p.tempo 140 }
  else if includes d "calm" || includes d "peaceful" || includes d "relaxing" then
    { p with mood := "calm", tempo := min p.tempo 90 }
  else p

/-- Duration detection (lines 135-140). -/
def durationPass (d : String) (p : MusicParams) : MusicParams :=
  if includes d "short" then { p with duration := 3 }
  else if includes d "long" then { p with duration := 10 }
  else p

/-- Complexity detection (lines 142-147). -/
def complexityPass (d : String) (p : MusicParams) : MusicParams :=
  if includes d "simple" || includes d "minimal" then { p with complexity := "simple" }
  else if includes d "complex" || includes d "intricate" then { p with complexity := "complex" }
  else p

/-- Source `ToneMusicGenerator._parseDescription` (lines 62-150): lower-case the
description, then run the detection passes in source order on the initial
parameter record. -/
def parseDescription (description : String) : MusicParams :=
  let d := jsToLower description
  complexityPass d (durationPass d (moodPass d (instrumentPass d
    (scalePass d (keyPass d (tempoPass d initParams))))))

/-- The mood keyword table (lines 120-133), in source order. -/
def moodKeywords : List String :=
  ["happy", "joyful", "cheerful", "sad", "melancholic", "somber",
   "energetic", "intense", "powerful", "calm", "peaceful", "relaxing"]

/-- The instrument keyword table (lines 105-113), in source order. -/
def instrumentKeywords : List String :=
  ["piano", "guitar", "drums", "drum", "bass", "violin", "flute",
   "trumpet", "saxophone", "sax"]

/-- Every keyword any detection pass matches against (tempo, key phrases,
scale, instruments, mood, duration, complexity tables). -/
def recognizedKeywords : List String :=
  ["slow", "lento", "adagio", "fast", "allegro", "presto",
   "moderate", "andante", "upbeat", "energetic",
   "key of c", "c major", "c minor", "key of d", "d major", "d minor",
   "key of e", "e major", "e minor", "key of f", "f major", "f minor",
   "key of g", "g major", "g minor", "key of a", "a major", "a minor",
   "key of b", "b major", "b minor",
   "minor", "major",
   "piano", "guitar", "drums", "drum", "bass", "violin", "flute",
   "trumpet", "saxophone", "sax",
   "happy", "joyful", "cheerful", "sad", "melancholic", "somber",
   "energetic", "intense", "powerful", "calm", "peaceful", "relaxing",
   "short", "long", "simple", "minimal", "complex", "intricate"]

/-! ## WAV encoder (`audioBufferToWav`, app.js lines 243-298) -/

/-- Little-endian bytes of a 16-bit write (`DataView.setUint16`): the value is
taken modulo 2^16 and split into two bytes, low byte first. -/
def le16 (n : Nat) : List Nat :=
  [n % 256, n / 256 % 256]

/-- Little-endian bytes of a 32-bit write (`DataView.setUint32`). -/
def le32 (n : Nat) : List Nat :=
  [n % 256, n / 256 % 256, n / 2 ^ 16 % 256, n / 2 ^ 24 % 256]

/-- Source `writeString`: one byte per character (`charCodeAt`, ASCII here). -/
def asciiBytes (s : String) : List Nat :=
  s.toList.map Char.toNat

/-- JS number-to-integer conversion used by `DataView.setInt16`: truncation
toward zero, computed as the numerator's t-division by the denominator. -/
def jsTrunc (q : Rat) : Int :=
  q.num.tdiv q.den

/-- Write of `DataView.setInt16 .. true`: two's-complement low 16 bits, little-endian. -/
def int16le (v : Int) : List Nat :=
  le16 ((v % 65536).toNat)

/-- One sample of the data section (lines 289-291): clamp to [-1,1] with
`Math.max(-1, Math.min(1, sample))`, scale by 0x8000 when negative and 0x7FFF
otherwise, truncate to an integer. -/
def clampScale (x : Rat) : Int :=
  let s0 := if x < 1 then x else 1
  let s := if s0 < -1 then -1 else s0
  jsTrunc (if s < 0 then s * 32768 else s * 32767)

/-- A Web Audio `AudioBuffer` as the encoder reads it: `length` (frame count),
`numberOfChannels`, `sampleRate`, and `getChannelData(i)` = the i-th entry of
`channelData`. Samples are rationals standing for the float samples. -/
structure JsAudioBuffer where
  numberOfChannels : Nat
  sampleRate : Nat
  length : Nat
  channelData : List (List Rat)

/-- The buffer shape `audioBufferToWav` assumes: one sample array per channel,
each of length `length`. -/
def JsAudioBuffer.consistent (b : JsAudioBuffer) : Prop :=
  b.channelData.length = b.numberOfChannels ∧ ∀ c ∈ b.channelData, c.length = b.length

instance (b : JsAudioBuffer) : Decidable b.consistent := by
  unfold JsAudioBuffer.consistent
  infer_instance

/-- Source `audioBufferToWav` (app.js lines 243-298): the writes are strictly
sequential (`pos` only advances), so the ArrayBuffer content is the
concatenation of the encoded header fields followed by the interleaved
sample words, frame-major, channel index within each frame. -/
def audioBufferToWav (b : JsAudioBuffer) : List Nat :=
  asciiBytes "RIFF" ++ le32 (36 + b.length * b.numberOfChannels * 2) ++
  asciiBytes "WAVE" ++ asciiBytes "fmt " ++
  le32 16 ++ le16 1 ++ le16 b.numberOfChannels ++ le32 b.sampleRate ++
  le32 (b.sampleRate * b.numberOfChannels * 2) ++ le16 (b.numberOfChannels * 2) ++
  le16 16 ++ asciiBytes "data" ++ le32 (b.length * b.numberOfChannels * 2) ++
  (List.range b.length).flatMap (fun i =>
    (List.range b.numberOfChannels).flatMap (fun ch =>
      int16le (clampScale ((b.channelData.getD ch []).getD i 0))))

/-- The byte layout as the spec (§4.4) words it: the 44-byte header field list
with dataBytes = frameCount × numChannels × 2, then, frames in temporal order,
the channels of each frame interleaved in channel order, each sample clamped,
scaled (32768 negative / 32767 non-negative) and stored as signed 16-bit
little-endian. -/
def wavSpecBytes (b : JsAudioBuffer) : List Nat :=
  asciiBytes "RIFF" ++ le32 (36 + b.length * b.numberOfChannels * 2) ++
  asciiBytes "WAVE" ++ asciiBytes "fmt " ++
  le32 16 ++ le16 1 ++ le16 b.numberOfChannels ++ le32 b.sampleRate ++
  le32 (b.sampleRate * b.numberOfChannels * 2) ++ le16 (b.numberOfChannels * 2) ++
  le16 16 ++ asciiBytes "data" ++ le32 (b.length * b.numberOfChannels * 2) ++
  (List.range b.length).flatMap (fun i =>
    b.channelData.flatMap (fun chan => int16le (clampScale (chan.getD i 0))))

/-! ## Generator fallback manager (music-generator-manager.js) -/

/-- A registered generator as the manager observes it in one `generate` call:
`id` stands for JS object identity (`!==` compares ids), `name` is what
`getName()` returns, `avail` is the outcome of `await isAvailable()` (it can
throw), and `gen` the outcome of `await generate(description, onProgress)`
for the call's fixed arguments. -/
structure JsGenerator (α : Type) where
  id : Nat
  name : String
  avail : Except String Bool
  gen : Except String α

/-- The manager's fields (lines 9-13). `generators` never holds null entries
(only constructed generators are pushed); `currentGenerator` and
`fallbackGenerator` start as null (`none`). -/
structure JsManager (α : Type) where
  generators : List (JsGenerator α)
  currentGenerator : Option (JsGenerator α)
  fallbackGenerator : Option (JsGenerator α)

/-- Source `registerGenerator` (lines 20-30). -/
def registerGenerator (m : JsManager α) (g : JsGenerator α) (isDefault : Bool) :
    JsManager α :=
  { generators := m.generators ++ [g],
    currentGenerator :=
      if isDefault || m.currentGenerator.isNone then some g else m.currentGenerator,
    fallbackGenerator :=
      if m.fallbackGenerator.isNone then some g else m.fallbackGenerator }

/-- Source `setGenerator` (lines 36-43): `Array.find` takes the first name match;
the manager is returned alongside the boolean result. -/
def setGenerator (m : JsManager α) (name : String) : Bool × JsManager α :=
  match m.generators.find? (fun g => g.name == name) with
  | some g => (true, { m with currentGenerator := some g })
  | none => (false, m)

/-- Test `g !== this.currentGenerator` (line 72): object identity against the
current generator, true whenever the current generator is null. -/
def neCurrent (m : JsManager α) (g : JsGenerator α) : Bool :=
  match m.currentGenerator with
  | none => true
  | some c => g.id != c.id

/-- The trial list of `generate` (lines 70-73):
`[currentGenerator, ...generators.filter(g => g !== currentGenerator)]`
followed by `.filter(g => g !== null)`. -/
def generatorsToTry (m : JsManager α) : List (JsGenerator α) :=
  (m.currentGenerator :: (m.generators.filter (neCurrent m)).map some).filterMap id

/-- The try loop of `generate` (lines 75-89): for each candidate, if
`isAvailable()` resolves true, return its `generate` result on success and
record the error on failure; a throw from `isAvailable` itself is also caught
and recorded; an unavailable candidate is skipped. After the loop, throw the
last recorded error, or the generic message when none was recorded. -/
def tryGenerators : List (JsGenerator α) → Option String → Except String α
  | [], lastError => .error (lastError.getD "No available music generators")
  | g :: rest, lastError =>
    match g.avail with
    | .error e => tryGenerators rest (some e)
    | .ok false => tryGenerators rest lastError
    | .ok true =>
      match g.gen with
      | .ok r => .ok r
      | .error e => tryGenerators rest (some e)

/-- Source `MusicGeneratorManager.generate` (lines 69-90). -/
def managerGenerate (m : JsManager α) : Except String α :=
  tryGenerators (generatorsToTry m) none

/-- The error value the try loop holds after scanning `gens` starting from
`acc`, assuming no candidate succeeds (used to state what the final `throw`
carries). -/
def lastErrorAfter : List (JsGenerator α) → Option String → Option String
  | [], acc => acc
  | g :: rest, acc =>
    match g.avail with
    | .error e => lastErrorAfter rest (some e)
    | .ok false => lastErrorAfter rest acc
    | .ok true =>
      match g.gen with
      | .ok _ => lastErrorAfter rest acc
      | .error e => lastErrorAfter rest (some e)

/-- Remove duplicate generators (by object identity), keeping first
occurrences — the deduplication step the spec describes. -/
def dedupById (l : List (JsGenerator α)) : List (JsGenerator α) :=
  (l.foldl
    (fun (acc : List (JsGenerator α) × List Nat) g =>
      if g.id ∈ acc.2 then acc else (acc.1 ++ [g], g.id :: acc.2))
    ([], [])).1

/-- The trial list as the spec (§4.5) words it: the currently selected
generator followed by all other registered generators in registration order,
the selected one excluded, deduplicated, null entries excluded. -/
def specTrialList (m : JsManager α) : List (JsGenerator α) :=
  match m.currentGenerator with
  | some c => dedupById (c :: m.generators.filter (fun g => g.id ≠ c.id))
  | none => dedupById m.generators

lemma tempoPass_frame (d : String) (p : MusicParams) :
    (tempoPass d p).key = p.key ∧ (tempoPass d p).scale = p.scale ∧
    (tempoPass d p).instruments = p.instruments ∧ (tempoPass d p).mood = p.mood ∧
    (tempoPass d p).duration = p.duration ∧ (tempoPass d p).complexity = p.complexity := by
  unfold tempoPass
  repeat' split
  all_goals simp

lemma keyLoop_frame (d : String) (ks : List String) (p : MusicParams) :
    (keyLoop d ks p).tempo = p.tempo ∧ (keyLoop d ks p).instruments = p.instruments ∧
    (keyLoop d ks p).mood = p.mood ∧ (keyLoop d ks p).duration = p.duration ∧
    (keyLoop d ks p).complexity = p.complexity := by
  induction ks generalizing p with
  | nil => simp [keyLoop]
  | cons k rest ih =>
      unfold keyLoop
      repeat' split
      all_goals simp [ih]

lemma keyPass_frame (d : String) (p : MusicParams) :
    (keyPass d p).tempo = p.tempo ∧ (keyPass d p).instruments = p.instruments ∧
    (keyPass d p).mood = p.mood ∧ (keyPass d p).duration = p.duration ∧
    (keyPass d p).complexity = p.complexity :=
  keyLoop_frame d _ p

lemma scalePass_frame (d : String) (p : MusicParams) :
    (scalePass d p).tempo = p.tempo ∧ (scalePass d p).key = p.key ∧
    (scalePass d p).instruments = p.instruments ∧ (scalePass d p).mood = p.mood ∧
    (scalePass d p).duration = p.duration ∧ (scalePass d p).complexity = p.complexity := by
  unfold scalePass
  repeat' split
  all_goals simp

lemma instrumentPass_frame (d : String) (p : MusicParams) :
    (instrumentPass d p).tempo = p.tempo ∧ (instrumentPass d p).key = p.key ∧
    (instrumentPass d p).scale = p.scale ∧ (instrumentPass d p).mood = p.mood ∧
    (instrumentPass d p).duration = p.duration ∧
    (instrumentPass d p).complexity = p.complexity := by
  unfold instrumentPass
  simp

lemma moodPass_frame (d : String) (p : MusicParams) :
    (moodPass d p).key = p.key ∧ (moodPass d p).instruments = p.instruments ∧
    (moodPass d p).duration = p.duration ∧ (moodPass d p).complexity = p.complexity := by
  unfold moodPass
  repeat' split
  all_goals simp

lemma durationPass_frame (d : String) (p : MusicParams) :
    (durationPass d p).tempo = p.tempo ∧ (durationPass d p).key = p.key ∧
    (durationPass d p).scale = p.scale ∧ (durationPass d p).instruments = p.instruments ∧
    (durationPass d p).mood = p.mood ∧ (durationPass d p).complexity = p.complexity := by
  unfold durationPass
  repeat' split
  all_goals simp

lemma complexityPass_frame (d : String) (p : MusicParams) :
    (complexityPass d p).tempo = p.tempo ∧ (complexityPass d p).key = p.key ∧
    (complexityPass d p).scale = p.scale ∧ (complexityPass d p).instruments = p.instruments ∧
    (complexityPass d p).mood = p.mood ∧ (complexityPass d p).duration = p.duration := by
  unfold complexityPass
  repeat' split
  all_goals simp

lemma moodPass_tempo_of_no_clamp (d : String) (p : MusicParams)
    (h1 : includes d "energetic" = false) (h2 : includes d "intense" = false)
    (h3 : includes d "powerful" = false) (h4 : includes d "calm" = false)
    (h5 : includes d "peaceful" = false) (h6 : includes d "relaxing" = false) :
    (moodPass d p).tempo = p.tempo := by
  unfold moodPass
  rw [h1, h2, h3, h4, h5, h6]
  repeat' split
  all_goals simp_all

lemma moodPass_scale_of_no_mood (d : String) (p : MusicParams)
    (hm : ∀ k ∈ moodKeywords, includes d k = false) :
    (moodPass d p).scale = p.scale := by
  simp only [moodKeywords, List.forall_mem_cons] at hm
  obtain ⟨h1, h2, h3, h4, h5, h6, h7, h8, h9, h10, h11, h12, -⟩ := hm
  unfold moodPass
  rw [h1, h2, h3, h4, h5, h6, h7, h8, h9, h10, h11, h12]
  simp

lemma moodPass_sad (d : String) (p : MusicParams)
    (h1 : includes d "happy" = false) (h2 : includes d "joyful" = false)
    (h3 : includes d "cheerful" = false) (hsad : includes d "sad" = true) :
    moodPass d p = { p with mood := "sad", scale := "minor" } := by
  unfold moodPass
  rw [h1, h2, h3, hsad]
  simp

/-- C2, as stated by the spec, is false: in the code the scale detection is an
`if / else if` chain, so when a text contains both "minor" and "major" (and no
mood keywords) the earlier "minor" branch wins and the scale is minor, not
major; witnessed at the description "minor major". -/
theorem C2_counterexample :
    includes (jsToLower "minor major") "minor" = true ∧
    includes (jsToLower "minor major") "major" = true ∧
    (∀ k ∈ moodKeywords, includes (jsToLower "minor major") k = false) ∧
    (parseDescription "minor major").scale ≠ "major" := by
  decide

/-- C2 (corrected): for every description containing both "minor" and "major"
(case-insensitively) and no mood keywords, the extracted scale is minor — the
"minor" test is checked first in the if / else-if chain, so it wins. -/
theorem C2_minor_wins_over_major (desc : String)
    (hmin : includes (jsToLower desc) "minor" = true)
    (_hmaj : includes (jsToLower desc) "major" = true)
    (hm : ∀ k ∈ moodKeywords, includes (jsToLower desc) k = false) :
    (parseDescription desc).scale = "minor" := by
  simp only [parseDescription]
  rw [(complexityPass_frame _ _).2.2.1, (durationPass_frame _ _).2.2.1,
      moodPass_scale_of_no_mood _ _ hm, (instrumentPass_frame _ _).2.2.1]
  unfold scalePass
  rw [hmin]
  simp

/-- Witness for C2 (corrected) at the description "minor major". -/
theorem C2_witness : (parseDescription "minor major").scale = "minor" :=
  C2_minor_wins_over_major "minor major" (by decide) (by decide) (by decide)

/-- C3, as stated, is false: the tempo detection is an `if / else if` chain, so
the FIRST matching class wins, not the last; at "slow upbeat" the code yields
tempo 60, not the claimed 140 (and no tempo-clamping mood keyword occurs). -/
theorem C3_counterexample :
    includes (jsToLower "slow upbeat") "slow" = true ∧
    includes (jsToLower "slow upbeat") "upbeat" = true ∧
    includes (jsToLower "slow upbeat") "energetic" = false ∧
    includes (jsToLower "slow upbeat") "intense" = false ∧
    includes (jsToLower "slow upbeat") "powerful" = false ∧
    includes (jsToLower "slow upbeat") "calm" = false ∧
    includes (jsToLower "slow upbeat") "peaceful" = false ∧
    includes (jsToLower "slow upbeat") "relaxing" = false ∧
    (parseDescription "slow upbeat").tempo ≠ 140 := by
  decide

/-- C3 (corrected): with no tempo-clamping mood keywords present, the extracted
tempo is decided by the FIRST matching class in the check order
slow → fast → moderate → upbeat (an if / else-if chain); in particular a
description containing both "slow" and "upbeat" yields tempo 60. -/
theorem C3_first_tempo_class_wins (desc : String)
    (he1 : includes (jsToLower desc) "energetic" = false)
    (he2 : includes (jsToLower desc) "intense" = false)
    (he3 : includes (jsToLower desc) "powerful" = false)
    (hc1 : includes (jsToLower desc) "calm" = false)
    (hc2 : includes (jsToLower desc) "peaceful" = false)
    (hc3 : includes (jsToLower desc) "relaxing" = false) :
    ((includes (jsToLower desc) "slow" || includes (jsToLower desc) "lento" ||
        includes (jsToLower desc) "adagio") = true →
      (parseDescription desc).tempo = 60) ∧
    ((includes (jsToLower desc) "slow" || includes (jsToLower desc) "lento" ||
        includes (jsToLower desc) "adagio") = false →
      (includes (jsToLower desc) "fast" || includes (jsToLower desc) "allegro" ||
        includes (jsToLower desc) "presto") = true →
      (parseDescription desc).tempo = 160) ∧
    ((includes (jsToLower desc) "slow" || includes (jsToLower desc) "lento" ||
        includes (jsToLower desc) "adagio") = false →
      (includes (jsToLower desc) "fast" || includes (jsToLower desc) "allegro" ||
        includes (jsToLower desc) "presto") = false →
      (includes (jsToLower desc) "moderate" || includes (jsToLower desc) "andante") = true →
      (parseDescription desc).tempo = 100) ∧
    ((includes (jsToLower desc) "slow" || includes (jsToLower desc) "lento" ||
        includes (jsToLower desc) "adagio") = false →
      (includes (jsToLower desc) "fast" || includes (jsToLower desc) "allegro" ||
        includes (jsToLower desc) "presto") = false →
      (includes (jsToLower desc) "moderate" || includes (jsToLower desc) "andante") = false →
      (includes (jsToLower desc) "upbeat" || includes (jsToLower desc) "energetic") = true →
      (parseDescription desc).tempo = 140) := by
  have hbase : (parseDescription desc).tempo =
      (tempoPass (jsToLower desc) initParams).tempo := by
    simp only [parseDescription]
    rw [(complexityPass_frame _ _).1, (durationPass_frame _ _).1,
        moodPass_tempo_of_no_clamp _ _ he1 he2 he3 hc1 hc2 hc3,
        (instrumentPass_frame _ _).1, (scalePass_frame _ _).1, (keyPass_frame _ _).1]
  refine ⟨?_, ?_, ?_, ?_⟩
  · intro h1
    rw [hbase]; unfold tempoPass; rw [h1]; simp
  · intro h1 h2
    rw [hbase]; unfold tempoPass; rw [h1, h2]; simp
  · intro h1 h2 h3
    rw [hbase]; unfold tempoPass; rw [h1, h2, h3]; simp
  · intro h1 h2 h3 h4
    rw [hbase]; unfold tempoPass; rw [h1, h2, h3, h4]; simp

/-- Witness for C3 (corrected) at the description "slow upbeat": the slow
class matches first, so the tempo is 60. -/
theorem C3_witness : (parseDescription "slow upbeat").tempo = 60 :=
  (C3_first_tempo_class_wins "slow upbeat" (by decide) (by decide) (by decide)
    (by decide) (by decide) (by decide)).1 (by decide)

/-- C6 (confirmed): a description matching no keyword of any table is mapped
to exactly the default parameter set: tempo 120, key C, major scale, the
default instrument pair, neutral mood, 5 seconds, medium complexity. -/
theorem C6_no_keywords_gives_defaults (desc : String)
    (h : ∀ k ∈ recognizedKeywords, includes (jsToLower desc) k = false) :
    parseDescription desc =
      { tempo := 120, key := "C", scale := "major", instruments := ["piano", "bass"],
        mood := "neutral", duration := 5, complexity := "medium" } := by
  have t01 : includes (jsToLower desc) "slow" = false := h _ (by decide)
  have t02 : includes (jsToLower desc) "lento" = false := h _ (by decide)
  have t03 : includes (jsToLower desc) "adagio" = false := h _ (by decide)
  have t04 : includes (jsToLower desc) "fast" = false := h _ (by decide)
  have t05 : includes (jsToLower desc) "allegro" = false := h _ (by decide)
  have t06 : includes (jsToLower desc) "presto" = false := h _ (by decide)
  have t07 : includes (jsToLower desc) "moderate" = false := h _ (by decide)
  have t08 : includes (jsToLower desc) "andante" = false := h _ (by decide)
  have t09 : includes (jsToLower desc) "upbeat" = false := h _ (by decide)
  have t10 : includes (jsToLower desc) "energetic" = false := h _ (by decide)
  have k01 : includes (jsToLower desc) "key of c" = false := h _ (by decide)
  have k02 : includes (jsToLower desc) "c major" = false := h _ (by decide)
  have k03 : includes (jsToLower desc) "c minor" = false := h _ (by decide)
  have k04 : includes (jsToLower desc) "key of d" = false := h _ (by decide)
  have k05 : includes (jsToLower desc) "d major" = false := h _ (by decide)
  have k06 : includes (jsToLower desc) "d minor" = false := h _ (by decide)
  have k07 : includes (jsToLower desc) "key of e" = false := h _ (by decide)
  have k08 : includes (jsToLower desc) "e major" = false := h _ (by decide)
  have k09 : includes (jsToLower desc) "e minor" = false := h _ (by decide)
  have k10 : includes (jsToLower desc) "key of f" = false := h _ (by decide)
  have k11 : includes (jsToLower desc) "f major" = false := h _ (by decide)
  have k12 : includes (jsToLower desc) "f minor" = false := h _ (by decide)
  have k13 : includes (jsToLower desc) "key of g" = false := h _ (by decide)
  have k14 : includes (jsToLower desc) "g major" = false := h _ (by decide)
  have k15 : includes (jsToLower desc) "g minor" = false := h _ (by decide)
  have k16 : includes (jsToLower desc) "key of a" = false := h _ (by decide)
  have k17 : includes (jsToLower desc) "a major" = false := h _ (by decide)
  have k18 : includes (jsToLower desc) "a minor" = false := h _ (by decide)
  have k19 : includes (jsToLower desc) "key of b" = false := h _ (by decide)
  have k20 : includes (jsToLower desc) "b major" = false := h _ (by decide)
  have k21 : includes (jsToLower desc) "b minor" = false := h _ (by decide)
  have s01 : includes (jsToLower desc) "minor" = false := h _ (by decide)
  have s02 : includes (jsToLower desc) "major" = false := h _ (by decide)
  have i01 : includes (jsToLower desc) "piano" = false := h _ (by decide)
  have i02 : includes (jsToLower desc) "guitar" = false := h _ (by decide)
  have i03 : includes (jsToLower desc) "drums" = false := h _ (by decide)
  have i04 : includes (jsToLower desc) "drum" = false := h _ (by decide)
  have i05 : includes (jsToLower desc) "bass" = false := h _ (by decide)
  have i06 : includes (jsToLower desc) "violin" = false := h _ (by decide)
  have i07 : includes (jsToLower desc) "flute" = false := h _ (by decide)
  have i08 : includes (jsToLower desc) "trumpet" = false := h _ (by decide)
  have i09 : includes (jsToLower desc) "saxophone" = false := h _ (by decide)
  have i10 : includes (jsToLower desc) "sax" = false := h _ (by decide)
  have m01 : includes (jsToLower desc) "happy" = false := h _ (by decide)
  have m02 : includes (jsToLower desc) "joyful" = false := h _ (by decide)
  have m03 : includes (jsToLower desc) "cheerful" = false := h _ (by decide)
  have m04 : includes (jsToLower desc) "sad" = false := h _ (by decide)
  have m05 : includes (jsToLower desc) "melancholic" = false := h _ (by decide)
  have m06 : includes (jsToLower desc) "somber" = false := h _ (by decide)
  have m07 : includes (jsToLower desc) "intense" = false := h _ (by decide)
  have m08 : includes (jsToLower desc) "powerful" = false := h _ (by decide)
  have m09 : includes (jsToLower desc) "calm" = false := h _ (by decide)
  have m10 : includes (jsToLower desc) "peaceful" = false := h _ (by decide)
  have m11 : includes (jsToLower desc) "relaxing" = false := h _ (by decide)
  have d01 : includes (jsToLower desc) "short" = false := h _ (by decide)
  have d02 : includes (jsToLower desc) "long" = false := h _ (by decide)
  have x01 : includes (jsToLower desc) "simple" = false := h _ (by decide)
  have x02 : includes (jsToLower desc) "minimal" = false := h _ (by decide)
  have x03 : includes (jsToLower desc) "complex" = false := h _ (by decide)
  have x04 : includes (jsToLower desc) "intricate" = false := h _ (by decide)
  simp [parseDescription, tempoPass, keyPass, keyLoop, scalePass, instrumentPass,
    moodPass, durationPass, complexityPass, initParams,
    t01, t02, t03, t04, t05, t06, t07, t08, t09, t10,
    k01, k02, k03, k04, k05, k06, k07, k08, k09, k10, k11, k12, k13, k14, k15,
    k16, k17, k18, k19, k20, k21, s01, s02,
    i01, i02, i03, i04, i05, i06, i07, i08, i09, i10,
    m01, m02, m03, m04, m05, m06, m07, m08, m09, m10, m11,
    d01, d02, x01, x02, x03, x04]

/-- Witness for C6 at the keyword-free description "qqq". -/
theorem C6_witness :
    parseDescription "qqq" =
      { tempo := 120, key := "C", scale := "major", instruments := ["piano", "bass"],
        mood := "neutral", duration := 5, complexity := "medium" } :=
  C6_no_keywords_gives_defaults "qqq" (by decide)

/-- C8, as stated, is false: the mood chain checks the happy class before the
sad class, so a text containing "sad" and "fast" (and no slow-class keyword)
can still come out with a major scale when a happy keyword is also present —
at "happy sad fast" the code sets mood happy and scale major. -/
theorem C8_counterexample :
    includes (jsToLower "happy sad fast") "sad" = true ∧
    includes (jsToLower "happy sad fast") "fast" = true ∧
    includes (jsToLower "happy sad fast") "slow" = false ∧
    includes (jsToLower "happy sad fast") "lento" = false ∧
    includes (jsToLower "happy sad fast") "adagio" = false ∧
    (parseDescription "happy sad fast").scale ≠ "minor" := by
  decide

/-- C8 (corrected): for a description containing "sad" and "fast", with no
slow-class tempo keyword and no happy-class mood keyword (the happy class is
checked before the sad class), the tempo is 160 (fast keyword) and the scale
is minor (sad mood override, which leaves the tempo untouched). -/
theorem C8_sad_fast (desc : String)
    (hsad : includes (jsToLower desc) "sad" = true)
    (hfast : includes (jsToLower desc) "fast" = true)
    (hs1 : includes (jsToLower desc) "slow" = false)
    (hs2 : includes (jsToLower desc) "lento" = false)
    (hs3 : includes (jsToLower desc) "adagio" = false)
    (hh1 : includes (jsToLower desc) "happy" = false)
    (hh2 : includes (jsToLower desc) "joyful" = false)
    (hh3 : includes (jsToLower desc) "cheerful" = false) :
    (parseDescription desc).tempo = 160 ∧ (parseDescription desc).scale = "minor" := by
  have hmood := moodPass_sad (jsToLower desc)
    (instrumentPass (jsToLower desc) (scalePass (jsToLower desc)
      (keyPass (jsToLower desc) (tempoPass (jsToLower desc) initParams))))
    hh1 hh2 hh3 hsad
  constructor
  · simp only [parseDescription]
    rw [(complexityPass_frame _ _).1, (durationPass_frame _ _).1, hmood]
    dsimp only
    rw [(instrumentPass_frame _ _).1, (scalePass_frame _ _).1, (keyPass_frame _ _).1]
    unfold tempoPass
    rw [hs1, hs2, hs3, hfast]
    simp
  · simp only [parseDescription]
    rw [(complexityPass_frame _ _).2.2.1, (durationPass_frame _ _).2.2.1, hmood]

/-- Witness for C8 (corrected) at the description "sad fast". -/
theorem C8_witness :
    (parseDescription "sad fast").tempo = 160 ∧
    (parseDescription "sad fast").scale = "minor" :=
  C8_sad_fast "sad fast" (by decide) (by decide) (by decide) (by decide)
    (by decide) (by decide) (by decide) (by decide)

/-- C9 (confirmed): the extracted instrument list is never empty, and when no
instrument keyword matches it is exactly the default pair [piano, bass]. -/
theorem C9_instruments_nonempty (desc : String) :
    (parseDescription desc).instruments ≠ [] ∧
    ((∀ k ∈ instrumentKeywords, includes (jsToLower desc) k = false) →
      (parseDescription desc).instruments = ["piano", "bass"]) := by
  have hbase : (parseDescription desc).instruments =
      (instrumentPass (jsToLower desc) (scalePass (jsToLower desc)
        (keyPass (jsToLower desc) (tempoPass (jsToLower desc) initParams)))).instruments := by
    simp only [parseDescription]
    rw [(complexityPass_frame _ _).2.2.2.1, (durationPass_frame _ _).2.2.2.1,
        (moodPass_frame _ _).2.1]
  constructor
  · rw [hbase]
    have key : ∀ l : List String, (if l.isEmpty then ["piano", "bass"] else l) ≠ [] := by
      intro l
      cases l <;> simp
    exact key _
  · intro h
    simp only [instrumentKeywords, List.forall_mem_cons] at h
    obtain ⟨i01, i02, i03, i04, i05, i06, i07, i08, i09, i10, -⟩ := h
    rw [hbase]
    unfold instrumentPass
    rw [i01, i02, i03, i04, i05, i06, i07, i08, i09, i10]
    simp

/-- Witness for C9 at the keyword-free description "hello". -/
theorem C9_witness :
    (parseDescription "hello").instruments ≠ [] ∧
    (parseDescription "hello").instruments = ["piano", "bass"] :=
  ⟨(C9_instruments_nonempty "hello").1,
   (C9_instruments_nonempty "hello").2 (by decide)⟩

/-- C4 (confirmed): with registered generators A, B, C (in that order, with A
current), A unavailable, B available but failing, C available and succeeding,
`generate` tries A, B, C in that order, returns C's result without raising,
and the error recorded before C's attempt is exactly B's (A was skipped
without recording one). -/
theorem C4_fallback_succeeds {α : Type} (A B C : JsGenerator α) (r : α) (e : String)
    (hAB : A.id ≠ B.id) (hAC : A.id ≠ C.id)
    (hA : A.avail = .ok false)
    (hB : B.avail = .ok true) (hBe : B.gen = .error e)
    (hC : C.avail = .ok true) (hCr : C.gen = .ok r) :
    generatorsToTry (⟨[A, B, C], some A, some A⟩ : JsManager α) = [A, B, C] ∧
    lastErrorAfter [A, B] (none : Option String) = some e ∧
    managerGenerate (⟨[A, B, C], some A, some A⟩ : JsManager α) = .ok r := by
  have hlist : generatorsToTry (⟨[A, B, C], some A, some A⟩ : JsManager α) = [A, B, C] := by
    have h1 : (A.id != A.id) = false := by simp
    have h2 : (B.id != A.id) = true := by simp [Ne.symm hAB]
    have h3 : (C.id != A.id) = true := by simp [Ne.symm hAC]
    simp [generatorsToTry, neCurrent, List.filter, h1, h2, h3]
  refine ⟨hlist, ?_, ?_⟩
  · simp [lastErrorAfter, hA, hB, hBe]
  · unfold managerGenerate
    rw [hlist]
    simp [tryGenerators, hA, hB, hBe, hC, hCr]

/-- Witness for C4 with concrete generators over `Nat` results. -/
theorem C4_witness :
    generatorsToTry (⟨[⟨0, "A", .ok false, .error "unused"⟩,
        ⟨1, "B", .ok true, .error "boom"⟩, ⟨2, "C", .ok true, .ok 42⟩],
      some ⟨0, "A", .ok false, .error "unused"⟩,
      some ⟨0, "A", .ok false, .error "unused"⟩⟩ : JsManager Nat) =
      [⟨0, "A", .ok false, .error "unused"⟩, ⟨1, "B", .ok true, .error "boom"⟩,
        ⟨2, "C", .ok true, .ok 42⟩] ∧
    lastErrorAfter ([⟨0, "A", .ok false, .error "unused"⟩,
        ⟨1, "B", .ok true, .error "boom"⟩] : List (JsGenerator Nat))
      (none : Option String) = some "boom" ∧
    managerGenerate (⟨[⟨0, "A", .ok false, .error "unused"⟩,
        ⟨1, "B", .ok true, .error "boom"⟩, ⟨2, "C", .ok true, .ok 42⟩],
      some ⟨0, "A", .ok false, .error "unused"⟩,
      some ⟨0, "A", .ok false, .error "unused"⟩⟩ : JsManager Nat) = .ok 42 :=
  C4_fallback_succeeds _ _ _ 42 "boom" (by decide) (by decide) rfl rfl rfl rfl rfl

lemma tryGenerators_exhausted {α : Type} (gens : List (JsGenerator α))
    (h : ∀ g ∈ gens, g.avail = .ok true → ∀ r : α, g.gen ≠ .ok r) :
    ∀ acc : Option String,
      tryGenerators gens acc =
        .error ((lastErrorAfter gens acc).getD "No available music generators") := by
  induction gens with
  | nil => intro acc; rfl
  | cons g rest ih =>
    intro acc
    have hg := h g (by simp)
    have hrest : ∀ x ∈ rest, x.avail = .ok true → ∀ r : α, x.gen ≠ .ok r :=
      fun x hx => h x (by simp [hx])
    unfold tryGenerators lastErrorAfter
    cases havail : g.avail with
    | error e => exact ih hrest (some e)
    | ok b =>
      cases b with
      | false => exact ih hrest acc
      | true =>
        cases hgen : g.gen with
        | ok r => exact absurd hgen (hg havail r)
        | error e => exact ih hrest (some e)

lemma lastErrorAfter_of_all_unavailable {α : Type} (gens : List (JsGenerator α))
    (h : ∀ g ∈ gens, g.avail = .ok false) :
    ∀ acc : Option String, lastErrorAfter gens acc = acc := by
  induction gens with
  | nil => intro acc; rfl
  | cons g rest ih =>
    intro acc
    have hg := h g (by simp)
    have hrest : ∀ x ∈ rest, x.avail = .ok false := fun x hx => h x (by simp [hx])
    unfold lastErrorAfter
    rw [hg]
    exact ih hrest acc

/-- C5 (confirmed): when no candidate generator succeeds, `generate` throws the
last error recorded while scanning the trial list (generic message when none
was recorded); in particular, when every candidate is unavailable it throws
the generic "No available music generators" error. -/
theorem C5_exhaustion_error (m : JsManager α)
    (h : ∀ g ∈ generatorsToTry m, g.avail = .ok true → ∀ r : α, g.gen ≠ .ok r) :
    managerGenerate m =
      .error ((lastErrorAfter (generatorsToTry m) none).getD
        "No available music generators") ∧
    ((∀ g ∈ generatorsToTry m, g.avail = .ok false) →
      managerGenerate m = .error "No available music generators") := by
  constructor
  · exact tryGenerators_exhausted _ h none
  · intro h2
    unfold managerGenerate
    rw [tryGenerators_exhausted _ h none,
        lastErrorAfter_of_all_unavailable _ h2 none]
    rfl

/-- Witness for C5: a manager whose single registered generator is
unavailable yields the generic error. -/
theorem C5_witness :
    managerGenerate (⟨[⟨0, "X", .ok false, .error "never"⟩],
      some ⟨0, "X", .ok false, .error "never"⟩,
      some ⟨0, "X", .ok false, .error "never"⟩⟩ : JsManager Nat) =
      .error ((lastErrorAfter (generatorsToTry
        (⟨[⟨0, "X", .ok false, .error "never"⟩],
          some ⟨0, "X", .ok false, .error "never"⟩,
          some ⟨0, "X", .ok false, .error "never"⟩⟩ : JsManager Nat)) none).getD
        "No available music generators") ∧
    ((∀ g ∈ generatorsToTry (⟨[⟨0, "X", .ok false, .error "never"⟩],
        some ⟨0, "X", .ok false, .error "never"⟩,
        some ⟨0, "X", .ok false, .error "never"⟩⟩ : JsManager Nat),
        g.avail = .ok false) →
      managerGenerate (⟨[⟨0, "X", .ok false, .error "never"⟩],
        some ⟨0, "X", .ok false, .error "never"⟩,
        some ⟨0, "X", .ok false, .error "never"⟩⟩ : JsManager Nat) =
        .error "No available music generators") :=
  C5_exhaustion_error _ (by
    intro g hg ht r hr
    simp [generatorsToTry, neCurrent, List.filter] at hg
    subst hg
    simp at ht)

/-- The concrete manager state refuting C7: the same generator object
registered twice (same identity 1), with a different generator selected. -/
def mgrC7 : JsManager Nat :=
  { generators := [⟨0, "A", .ok true, .ok 1⟩, ⟨1, "B", .ok true, .ok 2⟩,
      ⟨1, "B", .ok true, .ok 2⟩],
    currentGenerator := some ⟨0, "A", .ok true, .ok 1⟩,
    fallbackGenerator := some ⟨0, "A", .ok true, .ok 1⟩ }

/-- C7, as stated, is false: the code never deduplicates the tail, so a
generator registered twice appears twice in the trial list, while the
spec-described list (with duplicates removed) has it once — the two lists
even have different lengths (3 versus 2). -/
theorem C7_counterexample : generatorsToTry mgrC7 ≠ specTrialList mgrC7 := by
  intro h
  have hlen := congrArg List.length h
  have h3 : (generatorsToTry mgrC7).length = 3 := by decide
  have h2 : (specTrialList mgrC7).length = 2 := by decide
  rw [h3, h2] at hlen
  cases hlen

/-- C7 (corrected): the trial list is the selected generator followed by the
other registered generators in registration order with the selected one
excluded (by object identity) — duplicate registrations are retained, and
when no generator is selected the list is just the registration list. -/
theorem C7_trial_list (m : JsManager α) :
    (m.currentGenerator = none → generatorsToTry m = m.generators) ∧
    (∀ c, m.currentGenerator = some c →
      generatorsToTry m = c :: m.generators.filter (fun g => g.id != c.id)) := by
  constructor
  · intro h
    simp [generatorsToTry, neCurrent, h]
  · intro c h
    have hfun : neCurrent m = fun g => g.id != c.id := by
      funext g
      simp [neCurrent, h]
    simp [generatorsToTry, hfun, h, List.filterMap_cons, List.filterMap_map,
      List.filterMap_some]

/-- Witness for C7 (corrected) on a two-generator manager with the second
generator selected. -/
theorem C7_witness :
    generatorsToTry (⟨[⟨0, "A", .ok true, .ok 1⟩, ⟨1, "B", .ok true, .ok 2⟩],
      some ⟨1, "B", .ok true, .ok 2⟩, some ⟨0, "A", .ok true, .ok 1⟩⟩ : JsManager Nat) =
      ⟨1, "B", .ok true, .ok 2⟩ ::
        List.filter (fun g => g.id != 1)
          [⟨0, "A", .ok true, .ok 1⟩, ⟨1, "B", .ok true, .ok 2⟩] :=
  (C7_trial_list _).2 ⟨1, "B", .ok true, .ok 2⟩ rfl

lemma find_firstMatch {α : Type} (name : String) (l : List (JsGenerator α))
    (hex : ∃ g ∈ l, g.name = name) :
    ∃ pre g post, l = pre ++ g :: post ∧ g.name = name ∧
      (∀ x ∈ pre, x.name ≠ name) ∧
      l.find? (fun g => g.name == name) = some g := by
  induction l with
  | nil =>
    rcases hex with ⟨g, hg, -⟩
    cases hg
  | cons a t ih =>
    by_cases ha : a.name = name
    · exact ⟨[], a, t, by simp, ha, by simp, by simp [List.find?_cons_of_pos, ha]⟩
    · have hex' : ∃ g ∈ t, g.name = name := by
        rcases hex with ⟨g, hg, hname⟩
        rcases List.mem_cons.mp hg with rfl | hgt
        · exact absurd hname ha
        · exact ⟨g, hgt, hname⟩
      rcases ih hex' with ⟨pre, g, post, heq, hname, hpre, hfind⟩
      refine ⟨a :: pre, g, post, by simp [heq], hname, ?_, ?_⟩
      · intro x hx
        rcases List.mem_cons.mp hx with rfl | hxp
        · exact ha
        · exact hpre x hxp
      · rw [List.find?_cons_of_neg _ (by simp [ha]), hfind]

/-- C10 (confirmed): `setGenerator(name)` returns true and selects the first
registered generator named `name` when one exists, changing nothing else; when
none exists it returns false and the manager (current generator, registration
list and fallback) is unchanged. -/
theorem C10_setGenerator_spec (m : JsManager α) (name : String) :
    ((∃ g ∈ m.generators, g.name = name) →
      ∃ pre g post, m.generators = pre ++ g :: post ∧ g.name = name ∧
        (∀ x ∈ pre, x.name ≠ name) ∧
        setGenerator m name = (true, { m with currentGenerator := some g })) ∧
    ((∀ g ∈ m.generators, g.name ≠ name) → setGenerator m name = (false, m)) := by
  constructor
  · intro hex
    rcases find_firstMatch name m.generators hex with ⟨pre, g, post, heq, hname, hpre, hfind⟩
    refine ⟨pre, g, post, heq, hname, hpre, ?_⟩
    unfold setGenerator
    rw [hfind]
  · intro h
    unfold setGenerator
    rw [List.find?_eq_none.mpr (fun x hx => by simp [h x hx])]

/-- Witness for C10: selecting "B" among two generators. -/
theorem C10_witness :
    ∃ pre g post,
      (⟨[⟨0, "A", .ok true, .ok 1⟩, ⟨1, "B", .ok true, .ok 2⟩],
        none, none⟩ : JsManager Nat).generators = pre ++ g :: post ∧
      g.name = "B" ∧ (∀ x ∈ pre, x.name ≠ "B") ∧
      setGenerator (⟨[⟨0, "A", .ok true, .ok 1⟩, ⟨1, "B", .ok true, .ok 2⟩],
        none, none⟩ : JsManager Nat) "B" =
        (true, { (⟨[⟨0, "A", .ok true, .ok 1⟩, ⟨1, "B", .ok true, .ok 2⟩],
          none, none⟩ : JsManager Nat) with
            currentGenerator := some g }) :=
  (C10_setGenerator_spec _ "B").1 ⟨⟨1, "B", .ok true, .ok 2⟩, by simp, rfl⟩

lemma flatMap_length_const {β γ : Type} (l : List β) (f : β → List γ) (k : Nat)
    (h : ∀ x ∈ l, (f x).length = k) :
    (l.flatMap f).length = l.length * k := by
  induction l with
  | nil => simp
  | cons a t ih =>
    rw [List.flatMap_cons, List.length_append, h a (by simp),
        ih (fun x hx => h x (by simp [hx])), List.length_cons, Nat.succ_mul,
        Nat.add_comm]

lemma range_flatMap_getD {β : Type} (l : List β) (dflt : β) (f : β → List Nat) :
    (List.range l.length).flatMap (fun i => f (l.getD i dflt)) = l.flatMap f := by
  induction l with
  | nil => simp
  | cons a t ih =>
    rw [List.length_cons, List.range_succ_eq_map, List.flatMap_cons,
        List.flatMap_map]
    simp only [List.getD_cons_zero, List.getD_cons_succ]
    rw [ih, List.flatMap_cons]

/-- C1 (confirmed): for a consistent buffer the encoder emits exactly
44 + frameCount×numChannels×2 bytes, equal to the spec's §4.4 layout: the
little-endian header (RIFF / chunkSize 36+dataBytes / WAVE / fmt+16 / PCM 1 /
numChannels / sampleRate / byteRate / blockAlign / 16 bits / data /
dataBytes), then each frame's channels interleaved in order, every sample
clamped to [-1,1], scaled by 32768 when negative and 32767 otherwise, and
stored as a signed 16-bit little-endian word. -/
theorem C1_wav_encoder_layout (b : JsAudioBuffer) (h : b.consistent) :
    (audioBufferToWav b).length = 44 + b.length * b.numberOfChannels * 2 ∧
    audioBufferToWav b = wavSpecBytes b := by
  have hinner : ∀ i ∈ List.range b.length,
      ((List.range b.numberOfChannels).flatMap (fun ch =>
        int16le (clampScale ((b.channelData.getD ch []).getD i 0)))).length =
      b.numberOfChannels * 2 := by
    intro i _
    rw [flatMap_length_const _ _ 2 (fun ch _ => by simp [int16le, le16]),
        List.length_range]
  constructor
  · have hdatalen : ((List.range b.length).flatMap (fun i =>
        (List.range b.numberOfChannels).flatMap (fun ch =>
          int16le (clampScale ((b.channelData.getD ch []).getD i 0))))).length =
        b.length * (b.numberOfChannels * 2) := by
      rw [flatMap_length_const _ _ (b.numberOfChannels * 2) hinner, List.length_range]
    simp only [audioBufferToWav, asciiBytes, le16, le32, List.length_append, hdatalen]
    simp [Nat.mul_assoc]
  · have hfun : ∀ i : Nat,
        (List.range b.numberOfChannels).flatMap (fun ch =>
          int16le (clampScale ((b.channelData.getD ch []).getD i 0))) =
        b.channelData.flatMap (fun chan => int16le (clampScale (chan.getD i 0))) := by
      intro i
      rw [← h.1]
      exact range_flatMap_getD b.channelData []
        (fun chan => int16le (clampScale (chan.getD i 0)))
    unfold audioBufferToWav wavSpecBytes
    simp only [hfun]

/-- Witness for C1 on a concrete consistent two-channel buffer. -/
theorem C1_witness :
    (audioBufferToWav ⟨2, 8000, 2, [[1/2, -1/2], [2, -3/10]]⟩).length =
      44 + 2 * 2 * 2 ∧
    audioBufferToWav ⟨2, 8000, 2, [[1/2, -1/2], [2, -3/10]]⟩ =
      wavSpecBytes ⟨2, 8000, 2, [[1/2, -1/2], [2, -3/10]]⟩ :=
  C1_wav_encoder_layout ⟨2, 8000, 2, [[1/2, -1/2], [2, -3/10]]⟩ (by decide)


end MusicGen
